import Mathlib

/-!
Shallow embedding of `main.py` from woog-life/aare-scraper.

The program is a linear pipeline: fetch the aare-bern.ch page, parse it,
extract a `<temp>` and a `<temp-normal>` element, normalize the texts into
an (ISO-8601 UTC timestamp, temperature) pair, PUT the pair to a backend,
and notify via Telegram on failure.

Modelling conventions:
* Python exceptions are modelled by `PyResult`: `.ok v` is a normal return,
  `.exn e` is an uncaught exception propagating out of the function.
* Python floats are modelled as exact decimals (`Decimal`, an integer
  numerator over a power-of-ten denominator).  The program only parses
  decimal literals, compares a temperature with 0 and serializes it; no
  claim depends on IEEE-754 rounding, and the program never compares two
  floats with each other.
* The network is modelled by explicit outcome parameters (`GetOutcome` for
  `requests.get`, `PutOutcome` for `requests.put`): either an HTTP response
  or an exception raised by the transport.
* `BeautifulSoup(..., "html.parser")` is a total, error-tolerant parse; it is
  modelled as an opaque pure function `String → Soup`, where a `Soup` records
  what `find("temp")` and `find("temp-normal")` return, plus its `str()` text.
  A bs4 `Tag` is truthy iff `len(tag.contents) > 0`, which the model keeps as
  a `contents_len` field.
* `pytz.timezone("Europe/Berlin")` is embedded with the post-1996 EU rules:
  daylight-saving time runs from 03:00 local naive time on the last Sunday of
  March up to (excluding) 02:00 local naive time on the last Sunday of
  October; `localize` defaults to `is_dst=False`, so ambiguous and
  nonexistent local times resolve to the standard offset UTC+1, which is
  exactly the half-open window used below.  All dates the program can see are
  far past 1996.
* Logging (`create_logger`, `logger.*`) has no effect on any returned value
  and is omitted.  `send_telegram_alert` is summarized by the `ProcessEnd`
  outcome of the module-level driver code (lines 173-181 of the source).
-/

set_option autoImplicit false

/-- Exception classes the program can raise or catch.  The first three are the
transport errors named in the `except` clause of `send_data_to_backend`; the
rest are stand-ins for every other exception class. -/
inductive PyError where
  | connectionError
  | gaierror
  | maxRetryError
  | valueError
  | attributeError
  | typeError
  | osError
  deriving DecidableEq

/-- Result of running a Python function: a returned value or an uncaught
exception propagating to the caller. -/
inductive PyResult (α : Type) where
  | ok (val : α)
  | exn (e : PyError)
  deriving DecidableEq

/-- True iff the computation ended in an uncaught exception. -/
def pyRaises {α : Type} : PyResult α → Bool
  | .ok _ => false
  | .exn _ => true

/-- A bs4 `Tag`: its `.text` and the length of its `.contents` list (which is
what Python truthiness of a `Tag` tests). -/
structure Tag where
  text : String
  contents_len : Nat
  deriving DecidableEq

/-- Python `not tag` for an `Optional[Tag]`: `None` is falsy, and a `Tag` is
falsy iff `len(tag.contents) == 0`. -/
def pyNotTag : Option Tag → Bool
  | none => true
  | some t => t.contents_len == 0

/-- A parsed document, as far as the program queries it: the results of
`soup.find("temp")` and `soup.find("temp-normal")` (first match by tag name or
`None`), and the `str()` rendering used in one error message. -/
structure Soup where
  find_temp : Option Tag
  find_temp_normal : Option Tag
  str : String
  deriving DecidableEq

/-- A `requests.Response`, as far as the program inspects it: the `.ok` flag
(status below 400) and the `.content` body. -/
structure HttpResponse where
  ok : Bool
  content : String
  deriving DecidableEq

/-- The environment-derived configuration read at module load:
`BACKEND_URL`, `BACKEND_PATH` (with their defaults already applied) and the
raw `os.getenv` results for `AARE_UUID` and `API_KEY`. -/
structure Config where
  BACKEND_URL : String
  BACKEND_PATH : String
  UUID : Option String
  API_KEY : Option String
  deriving DecidableEq

/-- Outcome of the `requests.get` call in `get_website`: a response whose
body decodes to `content`, or a raised exception. -/
inductive GetOutcome where
  | response (content : String)
  | raises (e : PyError)
  deriving DecidableEq

/-- Outcome of the `requests.put` call in `send_data_to_backend`. -/
inductive PutOutcome where
  | response (r : HttpResponse)
  | raises (e : PyError)
  deriving DecidableEq

/-- Python `not s` for an `Optional[str]`: `None` and `""` are falsy. -/
def pyFalsyOptStr : Option String → Bool
  | none => true
  | some s => s.data.isEmpty

/-- Python `str()` applied to an `Optional[str]` (`str(None) = "None"`),
as `BACKEND_PATH.format(UUID)` would stringify a missing UUID. -/
def pyStr : Option String → String
  | none => "None"
  | some s => s

/-- Characters Python's `str.strip()` removes. -/
def pySpace (c : Char) : Bool :=
  c = ' ' || c = '\t' || c = '\n' || c = '\r' || c = '\x0b' || c = '\x0c'

/-- Python `str.strip()` on a character list. -/
def pyStrip (l : List Char) : List Char :=
  ((l.dropWhile pySpace).reverse.dropWhile pySpace).reverse

/-- If `pat` leads `l`, return the remainder of `l`; otherwise `none`. -/
def dropLeading : List Char → List Char → Option (List Char)
  | [], l => some l
  | _ :: _, [] => none
  | p :: ps, c :: cs => if p = c then dropLeading ps cs else none

/-- Whether `pat` leads `l`. -/
def leadsWith (pat l : List Char) : Bool :=
  (dropLeading pat l).isSome

/-- Everything before the first occurrence of the (nonempty) separator `sep`,
i.e. Python `s.split(sep)[0]`. -/
def takeUntilSub (sep : List Char) : List Char → List Char
  | [] => []
  | c :: rest =>
    if leadsWith sep (c :: rest) then [] else c :: takeUntilSub sep rest

/-- Everything after the first occurrence of `sep`, or `none` if `sep` does
not occur. -/
def dropThroughSub (sep : List Char) : List Char → Option (List Char)
  | [] => none
  | c :: rest =>
    match dropLeading sep (c :: rest) with
    | some r => some r
    | none => dropThroughSub sep rest

/-- Split a character list at every occurrence of the single character `c`:
Python `s.split(c)` (always returns at least one piece). -/
def splitOnChar (c : Char) : List Char → List (List Char)
  | [] => [[]]
  | x :: xs =>
    let r := splitOnChar c xs
    if x = c then [] :: r
    else
      match r with
      | h :: t => (x :: h) :: t
      | [] => [[x]]

/-- Numeric value of a list of decimal digit characters. -/
def digitsVal (l : List Char) : Nat :=
  l.foldl (fun a c => a * 10 + (c.toNat - 48)) 0

/-- The `"{}"` placeholder of `str.format`, written with escaped braces. -/
def fmtBrace : List Char := ['\x7b', '\x7d']

/-- Python `template.format(arg)` for the shapes the program uses: the
template holds at most one `"{}"` placeholder (the configured
`BACKEND_PATH` default is `"lake/\x7b\x7d/temperature"`). -/
def pyFormat (template arg : String) : String :=
  String.mk (takeUntilSub fmtBrace template.data ++
    (match dropThroughSub fmtBrace template.data with
     | some rest => arg.data ++ rest
     | none => []))

/-- An exact decimal number `num / den` with `den` a positive power of ten,
the values Python `float()` yields on the page's decimal literals (kept
exact: no claim depends on IEEE-754 rounding, and the program never compares
two floats with each other, only a float with the literal `0`). -/
structure Decimal where
  num : Int
  den : Nat
  deriving DecidableEq

/-- Order on decimals by cross-multiplication, matching the float `<=` the
program uses. -/
def Decimal.le (a b : Decimal) : Prop :=
  a.num * (b.den : Int) ≤ b.num * (a.den : Int)

/-- Strict order on decimals by cross-multiplication. -/
def Decimal.lt (a b : Decimal) : Prop :=
  a.num * (b.den : Int) < b.num * (a.den : Int)

instance : LE Decimal := ⟨Decimal.le⟩

instance : LT Decimal := ⟨Decimal.lt⟩

instance decDecimalLe (a b : Decimal) : Decidable (a ≤ b) :=
  Int.decLe (a.num * (b.den : Int)) (b.num * (a.den : Int))

instance decDecimalLt (a b : Decimal) : Decidable (a < b) :=
  Int.decLt (a.num * (b.den : Int)) (b.num * (a.den : Int))

instance : OfNat Decimal 0 := ⟨⟨0, 1⟩⟩

/-- Rendering of a decimal used only inside the backend-rejection log
message (CPython would print the float's repr; no claim inspects it). -/
def decimalRepr (d : Decimal) : String :=
  toString d.num ++ "/" ++ toString d.den

/-- Python `float(s)` restricted to the decimal forms the page can produce:
optional sign, digits with at most one decimal point, at least one digit.
(The builtin also accepts exponents, `inf`/`nan` and underscores, which no
claim exercises; on anything unparsable it raises `ValueError`, modelled by
`none`.) -/
def pyFloat (l : List Char) : Option Decimal :=
  let l := pyStrip l
  let signed : Int × List Char :=
    match l with
    | '-' :: r => (-1, r)
    | '+' :: r => (1, r)
    | r => (1, r)
  match splitOnChar '.' signed.2 with
  | [i] =>
    if i ≠ [] ∧ i.all Char.isDigit then
      some ⟨signed.1 * (digitsVal i : Int), 1⟩
    else none
  | [i, f] =>
    if (i ++ f) ≠ [] ∧ (i ++ f).all Char.isDigit then
      some ⟨signed.1 * (digitsVal (i ++ f) : Int), 10 ^ f.length⟩
    else none
  | _ => none

/-- Gregorian leap year. -/
def isLeapYear (y : Nat) : Bool :=
  y % 4 == 0 && (y % 100 != 0 || y % 400 == 0)

/-- Number of days in a month. -/
def daysInMonth (y m : Nat) : Nat :=
  if m = 2 then (if isLeapYear y then 29 else 28)
  else if m = 4 ∨ m = 6 ∨ m = 9 ∨ m = 11 then 30
  else 31

/-- Days from 0000-03-01 to the given proleptic-Gregorian civil date
(the standard era-based algorithm). -/
def daysFromCivilN (y m d : Nat) : Nat :=
  let y' := if m ≤ 2 then y - 1 else y
  let era := y' / 400
  let yoe := y' % 400
  let mp := (m + 9) % 12
  let doy := (153 * mp + 2) / 5 + (d - 1)
  let doe := yoe * 365 + yoe / 4 - yoe / 100 + doy
  era * 146097 + doe

/-- Civil date (year, month, day) from a count of days since 0000-03-01
(inverse of `daysFromCivilN` on genuine day counts). -/
def civilFromDaysN (z : Nat) : Nat × Nat × Nat :=
  let era := z / 146097
  let doe := z % 146097
  let yoe := (doe - doe / 1460 + doe / 36524 - doe / 146096) / 365
  let y' := yoe + era * 400
  let doy := doe - (365 * yoe + yoe / 4 - yoe / 100)
  let mp := (5 * doy + 2) / 153
  let d := doy - (153 * mp + 2) / 5 + 1
  let m := if mp < 10 then mp + 3 else mp - 9
  (if m ≤ 2 then y' + 1 else y', m, d)

/-- Day of week of a `daysFromCivilN` count, with 0 = Sunday
(0000-03-01 was a Wednesday). -/
def weekdayOfDays (z : Nat) : Nat := (z + 3) % 7

/-- Day number of the last Sunday of the given month. -/
def lastSundayOfMonth (y m : Nat) : Nat :=
  let L := daysInMonth y m
  L - weekdayOfDays (daysFromCivilN y m L)

/-- A naive `datetime` as produced by `datetime.strptime`. -/
structure NaiveDateTime where
  year : Nat
  month : Nat
  day : Nat
  hour : Nat
  minute : Nat
  second : Nat
  deriving DecidableEq

/-- Minutes from the 0000-03-01 epoch to the naive timestamp
(seconds are carried separately; both offsets are whole hours). -/
def naiveMinutes (t : NaiveDateTime) : Nat :=
  daysFromCivilN t.year t.month t.day * 1440 + t.hour * 60 + t.minute

/-- First naive-local minute of the DST window of year `y`:
03:00 on the last Sunday of March. -/
def dstStartMinutes (y : Nat) : Nat :=
  daysFromCivilN y 3 (lastSundayOfMonth y 3) * 1440 + 3 * 60

/-- First naive-local minute after the DST window of year `y`:
02:00 on the last Sunday of October. -/
def dstEndMinutes (y : Nat) : Nat :=
  daysFromCivilN y 10 (lastSundayOfMonth y 10) * 1440 + 2 * 60

/-- Whether Europe/Berlin is on daylight-saving time at the given naive local
timestamp, under pytz's `localize(..., is_dst=False)` resolution of ambiguous
and nonexistent times. -/
def isBerlinDST (t : NaiveDateTime) : Bool :=
  dstStartMinutes t.year ≤ naiveMinutes t && naiveMinutes t < dstEndMinutes t.year

/-- The UTC offset, in minutes, that `pytz.timezone("Europe/Berlin").localize`
attaches to the given naive local timestamp. -/
def berlinOffsetMinutes (t : NaiveDateTime) : Nat :=
  if isBerlinDST t then 120 else 60

/-- Shift a naive timestamp `off` minutes into the past, rolling dates as
needed; this is `aware.astimezone(pytz.utc)` for an aware timestamp whose
offset is `off`. -/
def shiftBackMinutes (t : NaiveDateTime) (off : Nat) : NaiveDateTime :=
  let tot := naiveMinutes t - off
  let ymd := civilFromDaysN (tot / 1440)
  ⟨ymd.1, ymd.2.1, ymd.2.2, (tot % 1440) / 60, tot % 60, t.second⟩

/-- `localize` in Europe/Berlin followed by `astimezone(pytz.utc)`. -/
def utcOfBerlin (t : NaiveDateTime) : NaiveDateTime :=
  shiftBackMinutes t (berlinOffsetMinutes t)

/-- Zero-padded decimal rendering. -/
def padNum (width n : Nat) : String :=
  let s := toString n
  String.mk (List.replicate (width - s.length) '0') ++ s

/-- The date-time body of `datetime.isoformat()`. -/
def isoCore (t : NaiveDateTime) : String :=
  padNum 4 t.year ++ "-" ++ padNum 2 t.month ++ "-" ++ padNum 2 t.day ++ "T" ++
    padNum 2 t.hour ++ ":" ++ padNum 2 t.minute ++ ":" ++ padNum 2 t.second

/-- `isoformat()` of a UTC-aware datetime with zero microseconds. -/
def isoFormatUtc (t : NaiveDateTime) : String :=
  isoCore t ++ "+00:00"

/-- The literal prefix in the strptime format string of the source,
`"Letztes Update: %Y-%m-%d %H:%M:%S"`. -/
def letztesUpdateLit : String := "Letztes Update: "

/-- The separator `send`/`get_water_information` splits the temperature text
on: the literal two characters `"Â°"` from source line 103. -/
def degreeMarker : List Char := ['Â', '°']

/-- Parse the `%Y-%m-%d %H:%M:%S` tail of the strptime pattern, in the
canonical zero-padded width (the CPython regexes also allow unpadded month,
day, hour, minute and second, which no reachable input uses), validating
ranges the way `datetime` construction does. -/
def parseYmdHms : List Char → Option NaiveDateTime
  | [y1, y2, y3, y4, '-', mo1, mo2, '-', d1, d2, ' ',
     h1, h2, ':', mi1, mi2, ':', s1, s2] =>
    if ([y1, y2, y3, y4, mo1, mo2, d1, d2, h1, h2, mi1, mi2, s1, s2].all Char.isDigit) then
      let y := digitsVal [y1, y2, y3, y4]
      let mo := digitsVal [mo1, mo2]
      let d := digitsVal [d1, d2]
      let h := digitsVal [h1, h2]
      let mi := digitsVal [mi1, mi2]
      let s := digitsVal [s1, s2]
      if 1 ≤ y ∧ 1 ≤ mo ∧ mo ≤ 12 ∧ 1 ≤ d ∧ d ≤ daysInMonth y mo ∧
          h ≤ 23 ∧ mi ≤ 59 ∧ s ≤ 59 then
        some ⟨y, mo, d, h, mi, s⟩
      else none
    else none
  | _ => none

/-- `datetime.strptime(text, "Letztes Update: %Y-%m-%d %H:%M:%S")`, with
`none` standing for the `ValueError` it raises on a mismatch. -/
def parseTimestampText (l : List Char) : Option NaiveDateTime :=
  match dropLeading letztesUpdateLit.data l with
  | none => none
  | some rest => parseYmdHms rest

/-- Fetcher, `get_website` (source lines 53-63).  The body contains no
`try`/`except`: an exception raised by `requests.get` (or by the decode)
propagates to the caller, and on any response at all the function returns
`(content, True)`. -/
def get_website (transport : GetOutcome) : PyResult (String × Bool) :=
  match transport with
  | .raises e => .exn e
  | .response content => .ok (content, true)

/-- Extractor, `extract_data` (source lines 70-83).  Note that the second
presence check of the source (line 79) re-tests `temperature_tag` instead of
`timestamp_tag`; the embedding reproduces that re-test verbatim. -/
def extract_data (html : Soup) : Option (Option Tag × Option Tag) :=
  let temperature_tag := html.find_temp
  if pyNotTag temperature_tag then none
  else
    let timestamp_tag := html.find_temp_normal
    if pyNotTag temperature_tag then none
    else some (temperature_tag, timestamp_tag)

/-- Normalizer, `get_water_information` (source lines 95-107).  The source
destructures the pair, runs `strptime` on the stripped timestamp text (an
attribute access on `None` raises `AttributeError`, a format mismatch raises
`ValueError`), localizes to Europe/Berlin, converts to UTC and renders
`isoformat()`, then parses the stripped temperature text up to the literal
`"Â°"` marker with `float` (raising `ValueError` on failure).  The declared
`Optional` return type notwithstanding, every successful path returns the
pair. -/
def get_water_information (soup : Option Tag × Option Tag) :
    PyResult (Option (String × Decimal)) :=
  let temperature_tag := soup.1
  let timestamp_tag := soup.2
  match timestamp_tag with
  | none => .exn .attributeError
  | some tsTag =>
    match parseTimestampText (pyStrip tsTag.text.data) with
    | none => .exn .valueError
    | some time =>
      let iso_time := isoFormatUtc (utcOfBerlin time)
      match temperature_tag with
      | none => .exn .attributeError
      | some tTag =>
        match pyFloat (takeUntilSub degreeMarker (pyStrip tTag.text.data)) with
        | none => .exn .valueError
        | some temperature => .ok (some (iso_time, temperature))

/-- The destination URL the Forwarder computes (source lines 113-114):
`"/".join([BACKEND_URL, BACKEND_PATH.format(UUID)])`. -/
def backendUrl (cfg : Config) : String :=
  cfg.BACKEND_URL ++ "/" ++ pyFormat cfg.BACKEND_PATH (pyStr cfg.UUID)

/-- Result of `send_data_to_backend` together with the number of
`requests.put` calls it issued. -/
structure SendResult where
  result : PyResult (Option HttpResponse × String)
  putCalls : Nat
  deriving DecidableEq

/-- The validation-rejection message of source line 118. -/
def manualApprovalMsg : String :=
  "water_temperature is <= 0, please approve this manually."

/-- Forwarder, `send_data_to_backend` (source lines 110-131): computes the
destination URL, rejects a non-positive temperature before any network call,
otherwise issues the PUT; `requests.exceptions.ConnectionError`,
`socket.gaierror` and `urllib3.exceptions.MaxRetryError` are caught and
converted to `(None, url)`, every other exception propagates, and any
response is returned as `(response, url)`. -/
def send_data_to_backend (cfg : Config) (put : PutOutcome)
    (water_information : String × Decimal) : SendResult :=
  let url := backendUrl cfg
  let water_temperature := water_information.2
  if water_temperature ≤ 0 then
    ⟨.ok (none, manualApprovalMsg), 0⟩
  else
    match put with
    | .response r => ⟨.ok (some r, url), 1⟩
    | .raises e =>
      match e with
      | .connectionError => ⟨.ok (none, url), 1⟩
      | .gaierror => ⟨.ok (none, url), 1⟩
      | .maxRetryError => ⟨.ok (none, url), 1⟩
      | _ => ⟨.exn e, 1⟩

/-- The extraction-failure message of source line 152. -/
def extractFailMsg : String :=
  "Couldn\x27t find a row with \x27Wassertemperatur\x27 as a description"

/-- The prefix of the (unreachable) normalization-failure message of source
line 159; the source interpolates `str(soup)` after it. -/
def waterInfoFailMsgPre : String :=
  "Couldn\x27t retrieve water information from "

/-- Python `str()` of a `(timestamp, temperature)` tuple, used only inside
the backend-rejection log message.  The numeric part is rendered with Lean's
simplistic `decimalRepr`, which differs from CPython float repr; no claim inspects this
message. -/
def pyReprPair (wi : String × Decimal) : String :=
  "(\x27" ++ wi.1 ++ "\x27, " ++ decimalRepr wi.2 ++ ")"

/-- The backend-rejection message of source line 166 for a present but
not-ok response. -/
def putFailMsg (wi : String × Decimal) (url : String) (resp : HttpResponse) : String :=
  "Failed to put data (" ++ pyReprPair wi ++ ") to backend: " ++ url ++ "\n" ++
    resp.content

/-- Driver, `main` (source lines 134-170), as a function of the configuration
and of the outcomes of the two network calls; `parse` stands for the total
`parse_website_xml` (BeautifulSoup).  Source notes reproduced:
* `get_website` never returns `success = False`, so the guarded branch at
  line 144 is kept but dead;
* `not data` on the `Optional` pair is `None`-ness, a 2-tuple being truthy,
  and likewise `not water_information` at line 158;
* at line 165, `not response` is `True` both for `None` and (via
  `Response.__bool__`) for a not-ok response, and the message f-string of
  line 166 then evaluates `response.content`, which on `None` raises
  `AttributeError`. -/
def mainRun (parse : String → Soup) (cfg : Config) (fetch : GetOutcome)
    (put : PutOutcome) : PyResult (Bool × String) :=
  if pyFalsyOptStr cfg.UUID then .ok (false, "AARE_UUID not defined")
  else if pyFalsyOptStr cfg.API_KEY then .ok (false, "API_KEY not defined")
  else
    match get_website fetch with
    | .exn e => .exn e
    | .ok (content, success) =>
      if success = false then
        .ok (false, "Couldn\x27t retrieve website: " ++ content)
      else
        let soup := parse content
        match extract_data soup with
        | none => .ok (false, extractFailMsg)
        | some data =>
          match get_water_information data with
          | .exn e => .exn e
          | .ok water_information =>
            match water_information with
            | none => .ok (false, waterInfoFailMsgPre ++ soup.str)
            | some wi =>
              match (send_data_to_backend cfg put wi).result with
              | .exn e => .exn e
              | .ok (response, generated_backend_url) =>
                match response with
                | none => .exn .attributeError
                | some resp =>
                  if resp.ok = false then
                    .ok (false, putFailMsg wi generated_backend_url resp)
                  else .ok (true, "")

/-- `mainRun` with the body of the `not water_information` branch (source
lines 158-161) replaced by a sentinel value.  Agreement of `mainRun` with
this variant on every input states that the branch is unreachable. -/
def mainRunWaterBranchStubbed (parse : String → Soup) (cfg : Config)
    (fetch : GetOutcome) (put : PutOutcome) : PyResult (Bool × String) :=
  if pyFalsyOptStr cfg.UUID then .ok (false, "AARE_UUID not defined")
  else if pyFalsyOptStr cfg.API_KEY then .ok (false, "API_KEY not defined")
  else
    match get_website fetch with
    | .exn e => .exn e
    | .ok (content, success) =>
      if success = false then
        .ok (false, "Couldn\x27t retrieve website: " ++ content)
      else
        let soup := parse content
        match extract_data soup with
        | none => .ok (false, extractFailMsg)
        | some data =>
          match get_water_information data with
          | .exn e => .exn e
          | .ok water_information =>
            match water_information with
            | none => .ok (true, "UNREACHABLE WATER INFO BRANCH")
            | some wi =>
              match (send_data_to_backend cfg put wi).result with
              | .exn e => .exn e
              | .ok (response, generated_backend_url) =>
                match response with
                | none => .exn .attributeError
                | some resp =>
                  if resp.ok = false then
                    .ok (false, putFailMsg wi generated_backend_url resp)
                  else .ok (true, "")

/-- How the whole process ends, modelling the module-level driver code
(source lines 173-181): on a success outcome the process falls off the end
with exit code 0; on a failure outcome it calls `send_telegram_alert` with
the message and exits 1; an exception out of `main` kills the process with a
traceback, before any notification. -/
inductive ProcessEnd where
  | exitOk
  | exitFailAfterNotify (message : String)
  | crashed (e : PyError)
  deriving DecidableEq

/-- The module-level epilogue applied to `main`'s result. -/
def runProcess (parse : String → Soup) (cfg : Config) (fetch : GetOutcome)
    (put : PutOutcome) : ProcessEnd :=
  match mainRun parse cfg fetch put with
  | .exn e => .crashed e
  | .ok (true, _) => .exitOk
  | .ok (false, message) => .exitFailAfterNotify message

/-- The temperature element of the real page in the happy-path scenario:
text `"18.4Â°C"` as the UTF-8 bytes of the page decode. -/
def tagTempMoji : Tag := ⟨"18.4Â°C", 1⟩

/-- The last-update element of the real page in the happy-path scenario. -/
def tagTsGerman : Tag := ⟨"Letztes Update: 2024-06-01 14:30:00", 1⟩

/-- The temperature element exactly as the claim C3 scenario writes it,
with a plain degree sign. -/
def tagTempDeg : Tag := ⟨"18.4°C", 1⟩

/-- The last-update element exactly as the claim C3 scenario writes it,
with the English prefix. -/
def tagTsEnglish : Tag := ⟨"Last update: 2024-06-01 14:30:00", 1⟩

/-- A winter (standard-time) last-update element. -/
def tagTsWinter : Tag := ⟨"Letztes Update: 2024-01-15 12:00:00", 1⟩

/-- A winter temperature element. -/
def tagTempWinter : Tag := ⟨"5.0Â°C", 1⟩

/-- The extracted pair of the winter scenario. -/
def pairWinter : Option Tag × Option Tag := (some tagTempWinter, some tagTsWinter)

/-- A document with a `<temp>` element but no `<temp-normal>` element. -/
def soupMissingTimestamp : Soup :=
  ⟨some tagTempMoji, none, "<temp>18.4Â°C</temp>"⟩

/-- The happy-path document tree. -/
def soupHappy : Soup :=
  ⟨some tagTempMoji, some tagTsGerman,
   "<temp>18.4Â°C</temp><temp-normal>Letztes Update: 2024-06-01 14:30:00</temp-normal>"⟩

/-- A parse function (standing for `parse_website_xml`) that yields the
happy-path tree. -/
def parseHappy : String → Soup := fun _ => soupHappy

/-- A fully-populated configuration. -/
def cfgHappy : Config :=
  ⟨"http://api:80", "lake/\x7b\x7d/temperature", some "aare-uuid", some "secret"⟩

/-- A concrete ok response. -/
def respOk : HttpResponse := ⟨true, "{}"⟩

/-- The happy-path water reading. -/
def wiHappy : String × Decimal := ("2024-06-01T12:30:00+00:00", ⟨184, 10⟩)

/-- The page body handed to the parser in the concrete scenarios. -/
def happyPage : String := "<html>"

/-- The destination URL `cfgHappy` yields. -/
def urlHappy : String := "http://api:80/lake/aare-uuid/temperature"

/-- A decimal strictly above zero is not below-or-equal zero. -/
theorem decimal_pos_not_le {d : Decimal} (h : (0 : Decimal) < d) :
    ¬ d ≤ (0 : Decimal) :=
  Int.not_le.mpr h

/-- Structural fact about the Normalizer: every run either raises or returns
a `some` pair; no path of `get_water_information` produces `.ok none`. -/
theorem gwi_shape (p : Option Tag × Option Tag) :
    (∃ e, get_water_information p = .exn e) ∨
    (∃ ts temp, get_water_information p = .ok (some (ts, temp))) := by
  obtain ⟨tt, nt⟩ := p
  cases nt with
  | none => exact Or.inl ⟨.attributeError, rfl⟩
  | some tsTag =>
    cases hp : parseTimestampText (pyStrip tsTag.text.data) with
    | none => exact Or.inl ⟨.valueError, by simp [get_water_information, hp]⟩
    | some t =>
      cases tt with
      | none => exact Or.inl ⟨.attributeError, by simp [get_water_information, hp]⟩
      | some tTag =>
        cases hf : pyFloat (takeUntilSub degreeMarker (pyStrip tTag.text.data)) with
        | none => exact Or.inl ⟨.valueError, by simp [get_water_information, hp, hf]⟩
        | some q =>
          exact Or.inr ⟨isoFormatUtc (utcOfBerlin t), q,
            by simp [get_water_information, hp, hf]⟩

/-- The driver agrees with the variant whose water-information-missing branch
was replaced by a sentinel: that branch is unreachable. -/
theorem mainRun_eq_stubbed (parse : String → Soup) (cfg : Config)
    (fetch : GetOutcome) (put : PutOutcome) :
    mainRun parse cfg fetch put = mainRunWaterBranchStubbed parse cfg fetch put := by
  unfold mainRun mainRunWaterBranchStubbed
  cases hU : pyFalsyOptStr cfg.UUID with
  | true => rfl
  | false =>
    cases hK : pyFalsyOptStr cfg.API_KEY with
    | true => rfl
    | false =>
      cases fetch with
      | raises e => rfl
      | response content =>
        cases hd : extract_data (parse content) with
        | none => simp [get_website, hd]
        | some data =>
          cases hw : get_water_information data with
          | exn e => simp [get_website, hd, hw]
          | ok wi =>
            cases wi with
            | some w => simp [get_website, hd, hw]
            | none =>
              rcases gwi_shape data with ⟨e, he⟩ | ⟨ts, temp, ho⟩
              · rw [hw] at he
                cases he
              · rw [hw] at ho
                simp at ho

/-- C1: with a valid configuration and the happy-path page, a backend PUT
that raises a connection error makes the Forwarder return `(None, url)`, but
`main` then raises `AttributeError` (the failure-message f-string evaluates
`response.content` on `None`), so the process dies without invoking the
Notifier instead of returning a `(False, message)` outcome. -/
theorem c1_backend_down_crashes :
    (send_data_to_backend cfgHappy (.raises .connectionError) wiHappy).result
      = .ok (none, backendUrl cfgHappy) ∧
    mainRun parseHappy cfgHappy (.response happyPage) (.raises .connectionError)
      = .exn .attributeError ∧
    runProcess parseHappy cfgHappy (.response happyPage) (.raises .connectionError)
      = .crashed .attributeError := by
  decide

/-- C2: on a document whose `<temp>` element is present but whose
`<temp-normal>` element is absent, `extract_data` returns the pair
`(temp_tag, None)` instead of `None` — the second presence check of the
source re-tests the temperature element. -/
theorem c2_extract_missing_timestamp_returns_pair :
    extract_data soupMissingTimestamp = some (some tagTempMoji, none) ∧
    extract_data soupMissingTimestamp ≠ none := by
  decide

/-- C3 counterexample: on the document of the claim, with the English prefix
`"Last update: "` and a plain degree sign, the Normalizer raises `ValueError`
(the strptime pattern of the source expects `"Letztes Update: "`) instead of
producing the claimed reading. -/
theorem c3_claimed_document_raises :
    get_water_information (some tagTempDeg, some tagTsEnglish) = .exn .valueError := by
  decide

/-- C3 as amended: for the concrete source document containing
`<temp>18.4Â°C</temp><temp-normal>Letztes Update: 2024-06-01 14:30:00</temp-normal>`,
the Normalizer produces `("2024-06-01T12:30:00+00:00", 18.4)`: it strips the
literal prefix `"Letztes Update: "`, parses `YYYY-MM-DD HH:MM:SS`, converts
CEST to UTC, and parses the temperature text up to the `"Â°"` marker as a
float. -/
theorem c3_actual_document_normalizes :
    get_water_information (some tagTempMoji, some tagTsGerman)
      = .ok (some ("2024-06-01T12:30:00+00:00", (⟨184, 10⟩ : Decimal))) := by
  decide

/-- C4: for every reading with temperature ≤ 0, the Forwarder returns a
result whose response component is `None` with the manual-approval message,
and issues no HTTP call at all. -/
theorem c4_forwarder_rejects_nonpositive :
    ∀ (cfg : Config) (put : PutOutcome) (wi : String × Decimal),
      wi.2 ≤ 0 →
      send_data_to_backend cfg put wi = ⟨.ok (none, manualApprovalMsg), 0⟩ := by
  intro cfg put wi h
  simp [send_data_to_backend, h]

/-- Witness for C4 at temperature −1. -/
theorem c4_forwarder_rejects_nonpositive_witness :
    send_data_to_backend cfgHappy (.response respOk)
        ("2024-01-01T00:00:00+00:00", ⟨-1, 1⟩)
      = ⟨.ok (none, manualApprovalMsg), 0⟩ :=
  c4_forwarder_rejects_nonpositive cfgHappy (.response respOk)
    ("2024-01-01T00:00:00+00:00", ⟨-1, 1⟩) (by decide)

/-- C5 counterexample: on the validation-rejection path (temperature 0) the
second component of the Forwarder result is the manual-approval message, not
the destination URL. -/
theorem c5_rejection_second_component_not_url :
    (send_data_to_backend cfgHappy (.response respOk)
        ("2024-01-01T00:00:00+00:00", ⟨0, 1⟩)).result
      = .ok (none, manualApprovalMsg) ∧
    manualApprovalMsg ≠ backendUrl cfgHappy := by
  decide

/-- C5 as amended: for readings with positive temperature, every returning
path of the Forwarder (a response, or a caught transport error) carries the
destination URL as second component; on validation rejection the second
component is the manual-approval message instead. -/
theorem c5_url_on_non_rejection_paths :
    ∀ (cfg : Config) (put : PutOutcome) (wi : String × Decimal)
      (o : Option HttpResponse) (u : String),
      0 < wi.2 →
      (send_data_to_backend cfg put wi).result = .ok (o, u) →
      u = backendUrl cfg := by
  intro cfg put wi o u h hok
  have hn : ¬ wi.2 ≤ 0 := decimal_pos_not_le h
  cases put with
  | response r =>
    simp [send_data_to_backend, hn] at hok
    exact hok.2.symm
  | raises e =>
    cases e with
    | connectionError =>
      simp [send_data_to_backend, hn] at hok
      exact hok.2.symm
    | gaierror =>
      simp [send_data_to_backend, hn] at hok
      exact hok.2.symm
    | maxRetryError =>
      simp [send_data_to_backend, hn] at hok
      exact hok.2.symm
    | valueError => simp [send_data_to_backend, hn] at hok
    | attributeError => simp [send_data_to_backend, hn] at hok
    | typeError => simp [send_data_to_backend, hn] at hok
    | osError => simp [send_data_to_backend, hn] at hok

/-- Witness for C5 as amended, on the happy path. -/
theorem c5_url_on_non_rejection_paths_witness :
    urlHappy = backendUrl cfgHappy :=
  c5_url_on_non_rejection_paths cfgHappy (.response respOk) wiHappy
    (some respOk) urlHappy (by decide) (by decide)

/-- C6 counterexample: when the transport of the GET fails, `get_website`
raises (the exception propagates) — it does not return `(errorDetail, false)`
as claimed. -/
theorem c6_transport_failure_raises :
    pyRaises (get_website (.raises .connectionError)) = true ∧
    get_website (.raises .connectionError) = .exn .connectionError := by
  decide

/-- C6 as amended: on any HTTP response, even non-2xx, `get_website` returns
`(content, true)`; if the transport itself fails, the exception propagates
out of `get_website` rather than being converted to `(errorDetail, false)`. -/
theorem c6_fetcher_behavior :
    (∀ c : String, get_website (.response c) = .ok (c, true)) ∧
    (∀ e : PyError, get_website (.raises e) = .exn e) :=
  ⟨fun _ => rfl, fun _ => rfl⟩

/-- C7: whenever the Normalizer succeeds, the timestamp text parsed from the
last-update element determines a naive local time `t`, and the emitted string
is the ISO-8601 rendering, with the `+00:00` UTC offset, of `t` shifted into
the past by the Europe/Berlin seasonal offset: 120 minutes during
daylight-saving time and 60 minutes during standard time. -/
theorem c7_normalizer_seasonal_offset :
    ∀ (pair : Option Tag × Option Tag) (ts : String) (temp : Decimal),
      get_water_information pair = .ok (some (ts, temp)) →
      ∃ t : NaiveDateTime,
        (∃ tag, pair.2 = some tag ∧
          parseTimestampText (pyStrip tag.text.data) = some t) ∧
        ts = isoCore (shiftBackMinutes t (berlinOffsetMinutes t)) ++ "+00:00" ∧
        (isBerlinDST t = true → berlinOffsetMinutes t = 120) ∧
        (isBerlinDST t = false → berlinOffsetMinutes t = 60) := by
  intro pair ts temp h
  obtain ⟨tt, nt⟩ := pair
  cases nt with
  | none => simp [get_water_information] at h
  | some tsTag =>
    cases hp : parseTimestampText (pyStrip tsTag.text.data) with
    | none => simp [get_water_information, hp] at h
    | some t =>
      refine ⟨t, ⟨tsTag, rfl, hp⟩, ?_, ?_, ?_⟩
      · cases tt with
        | none => simp [get_water_information, hp] at h
        | some tTag =>
          cases hf : pyFloat (takeUntilSub degreeMarker (pyStrip tTag.text.data)) with
          | none => simp [get_water_information, hp, hf] at h
          | some q =>
            have h2 : get_water_information (some tTag, some tsTag)
                = .ok (some (isoFormatUtc (utcOfBerlin t), q)) := by
              simp [get_water_information, hp, hf]
            rw [h2] at h
            simp only [PyResult.ok.injEq, Option.some.injEq, Prod.mk.injEq] at h
            exact h.1.symm
      · intro hd
        simp [berlinOffsetMinutes, hd]
      · intro hd
        simp [berlinOffsetMinutes, hd]

/-- Witness for C7 at a standard-time (winter) reading. -/
theorem c7_normalizer_seasonal_offset_witness :
    ∃ t : NaiveDateTime,
      (∃ tag, pairWinter.2 = some tag ∧
        parseTimestampText (pyStrip tag.text.data) = some t) ∧
      "2024-01-15T11:00:00+00:00"
          = isoCore (shiftBackMinutes t (berlinOffsetMinutes t)) ++ "+00:00" ∧
      (isBerlinDST t = true → berlinOffsetMinutes t = 120) ∧
      (isBerlinDST t = false → berlinOffsetMinutes t = 60) :=
  c7_normalizer_seasonal_offset pairWinter ("2024-01-15T11:00:00+00:00") ⟨50, 10⟩
    (by decide)

/-- C8: for a positive-temperature reading, the Forwarder catches exactly the
three transport exception classes of its `except` clause — connection error,
DNS resolution failure, retry exhaustion — returning `(None, url)` for each,
and every other exception propagates out of it. -/
theorem c8_forwarder_catches_only_transport :
    ∀ (cfg : Config) (wi : String × Decimal),
      0 < wi.2 →
      ((send_data_to_backend cfg (.raises .connectionError) wi).result
          = .ok (none, backendUrl cfg)) ∧
      ((send_data_to_backend cfg (.raises .gaierror) wi).result
          = .ok (none, backendUrl cfg)) ∧
      ((send_data_to_backend cfg (.raises .maxRetryError) wi).result
          = .ok (none, backendUrl cfg)) ∧
      (∀ e : PyError,
        e ≠ .connectionError → e ≠ .gaierror → e ≠ .maxRetryError →
        (send_data_to_backend cfg (.raises e) wi).result = .exn e) := by
  intro cfg wi h
  have hn : ¬ wi.2 ≤ 0 := decimal_pos_not_le h
  refine ⟨by simp [send_data_to_backend, hn], by simp [send_data_to_backend, hn],
    by simp [send_data_to_backend, hn], ?_⟩
  intro e h1 h2 h3
  cases e with
  | connectionError => exact absurd rfl h1
  | gaierror => exact absurd rfl h2
  | maxRetryError => exact absurd rfl h3
  | valueError => simp [send_data_to_backend, hn]
  | attributeError => simp [send_data_to_backend, hn]
  | typeError => simp [send_data_to_backend, hn]
  | osError => simp [send_data_to_backend, hn]

/-- Witness for C8 on the happy-path reading and a connection error. -/
theorem c8_forwarder_catches_only_transport_witness :
    (send_data_to_backend cfgHappy (.raises .connectionError) wiHappy).result
      = .ok (none, backendUrl cfgHappy) :=
  (c8_forwarder_catches_only_transport cfgHappy wiHappy (by decide)).1

/-- C9: the pipeline is deterministic — two runs of the driver with the same
parser, configuration, fetched content and backend behavior produce the same
outcome; no state is carried between runs. -/
theorem c9_main_deterministic :
    ∀ (parse parse' : String → Soup) (cfg cfg' : Config)
      (fetch fetch' : GetOutcome) (put put' : PutOutcome),
      parse = parse' → cfg = cfg' → fetch = fetch' → put = put' →
      mainRun parse cfg fetch put = mainRun parse' cfg' fetch' put' := by
  intro parse parse' cfg cfg' fetch fetch' put put' h1 h2 h3 h4
  rw [h1, h2, h3, h4]

/-- Witness for C9 on the happy-path run. -/
theorem c9_main_deterministic_witness :
    mainRun parseHappy cfgHappy (.response happyPage) (.response respOk)
      = mainRun parseHappy cfgHappy (.response happyPage) (.response respOk) :=
  c9_main_deterministic parseHappy parseHappy cfgHappy cfgHappy
    (.response happyPage) (.response happyPage) (.response respOk)
    (.response respOk) rfl rfl rfl rfl

/-- C10: the Normalizer either raises or returns a pair — it never returns
`None` — and consequently `main` is unchanged when the branch guarding a
falsy `water_information` is replaced by a sentinel: the branch is
unreachable. -/
theorem c10_normalizer_never_none :
    (∀ p : Option Tag × Option Tag,
      (∃ e, get_water_information p = .exn e) ∨
      (∃ ts temp, get_water_information p = .ok (some (ts, temp)))) ∧
    (∀ (parse : String → Soup) (cfg : Config) (fetch : GetOutcome)
       (put : PutOutcome),
      mainRun parse cfg fetch put = mainRunWaterBranchStubbed parse cfg fetch put) :=
  ⟨gwi_shape, mainRun_eq_stubbed⟩
